import Mathlib

/-!
Shallow embedding of the content-protection layer of the
secure-document-vault-pro repository: the SecurityLayer component
(src/unnamed/part_001) and the DocumentViewer component
(src/src/components/DocumentViewer.tsx).

State is modelled explicitly: the SecurityLayer's two React state booleans
become a `SecState` record, DOM events become inductive event values, and
each handler becomes a pure function from event and state to state (and,
where the handler can cancel the event, to the resulting event as well).
JavaScript numbers used by the code (window metrics, indices, zoom) are
modelled as `Int`.
-/

namespace SecurityLayer

/-- Protection state owned by the SecurityLayer component (part_001 lines
8-9): `devToolsOpen` is the spec's `inspectionToolsSuspected`,
`screenCaptureAttempt` is the spec's `captureAttemptSuspected`. -/
structure SecState where
  devToolsOpen : Bool
  screenCaptureAttempt : Bool
deriving DecidableEq, Repr

/-- Window metrics sampled by the detection poll (window.outerWidth etc.). -/
structure WindowDims where
  outerWidth : Int
  innerWidth : Int
  outerHeight : Int
  innerHeight : Int
deriving DecidableEq, Repr

/-- detectDevTools (part_001 lines 13-25): the body of the 500ms poll.
If outerWidth - innerWidth > 160 or outerHeight - innerHeight > 160 it
sets devToolsOpen, otherwise it clears it. -/
def detectDevTools (w : WindowDims) (s : SecState) : SecState :=
  let widthThreshold := decide (w.outerWidth - w.innerWidth > 160)
  let heightThreshold := decide (w.outerHeight - w.innerHeight > 160)
  if widthThreshold || heightThreshold then
    { s with devToolsOpen := true }
  else
    { s with devToolsOpen := false }

/-- Keyboard event as delivered to a keydown listener: the modifier flags
and the UI Events `key` string (which is case-sensitive: a plain Ctrl+U
press delivers "u", Ctrl+Shift+U delivers "U"). -/
structure KeyEvent where
  ctrlKey : Bool
  shiftKey : Bool
  key : String
deriving DecidableEq, Repr

/-- Condition of the SecurityLayer handleKeyDown (part_001 lines 36-41):
F12, Ctrl+Shift+I, Ctrl+Shift+C, or Ctrl with the literal key value "U". -/
def devToolsKeyCombo (e : KeyEvent) : Bool :=
  e.key == "F12" ||
  (e.ctrlKey && e.shiftKey && e.key == "I") ||
  (e.ctrlKey && e.shiftKey && e.key == "C") ||
  (e.ctrlKey && e.key == "U")

/-- handleKeyDown (part_001 lines 35-45): when the combo matches it calls
e.preventDefault() and setDevToolsOpen(true). Returns (defaultPrevented
by this handler, new state). -/
def handleKeyDown (e : KeyEvent) (s : SecState) : Bool × SecState :=
  if devToolsKeyCombo e then (true, { s with devToolsOpen := true })
  else (false, s)

/-- A value held in the navigator.mediaDevices.getDisplayMedia slot:
either the platform's original function or the blocking stub installed by
detectScreenCapture. -/
inductive CaptureFn
  | original
  | stub
deriving DecidableEq, Repr

/-- navigator.mediaDevices: its getDisplayMedia property may be absent. -/
structure MediaDevices where
  getDisplayMedia : Option CaptureFn
deriving DecidableEq, Repr

/-- The navigator object: mediaDevices itself may be absent. -/
structure Navigator where
  mediaDevices : Option MediaDevices
deriving DecidableEq, Repr

/-- Whether navigator.mediaDevices && navigator.mediaDevices.getDisplayMedia
is truthy (the guard at part_001 line 61). -/
def hasCaptureAPI (nav : Navigator) : Bool :=
  match nav.mediaDevices with
  | some md => md.getDisplayMedia.isSome
  | none => false

/-- detectScreenCapture (part_001 lines 58-71): when the capture API is
present, overwrite getDisplayMedia with the stub; otherwise do nothing
(the catch branch only logs, no error is surfaced). -/
def detectScreenCapture (nav : Navigator) : Navigator :=
  match nav.mediaDevices with
  | some md =>
    match md.getDisplayMedia with
    | some _ => { mediaDevices := some { getDisplayMedia := some CaptureFn.stub } }
    | none => nav
  | none => nav

/-- Result of a getDisplayMedia call: a resolved media stream or a
rejected promise carrying an error message. -/
inductive CaptureResult
  | resolvedStream
  | rejected (msg : String)
deriving DecidableEq, Repr

/-- Invoking the function stored in the getDisplayMedia slot. The stub
(part_001 lines 63-66) sets screenCaptureAttempt and returns a rejected
promise; the original platform function would resolve with a stream. -/
def invokeCapture : CaptureFn → SecState → SecState × CaptureResult
  | CaptureFn.stub, s =>
      ({ s with screenCaptureAttempt := true },
        CaptureResult.rejected "Screen capture blocked by SecureViewer Pro")
  | CaptureFn.original, s => (s, CaptureResult.resolvedStream)

/-- onClick of the Continue button on the screen-capture obstruction
(part_001 line 166): setScreenCaptureAttempt(false) and nothing else. -/
def continueClick (s : SecState) : SecState :=
  { s with screenCaptureAttempt := false }

/-- What the SecurityLayer renders (part_001 lines 144-176): the
developer-tools obstruction takes precedence, then the screen-capture
obstruction, otherwise the children pass through. -/
inductive SecRender
  | accessDenied
  | captureBlocked
  | children
deriving DecidableEq, Repr

/-- The render ordering of part_001 lines 144-176. -/
def render (s : SecState) : SecRender :=
  if s.devToolsOpen then SecRender.accessDenied
  else if s.screenCaptureAttempt then SecRender.captureBlocked
  else SecRender.children

/-- Events that mutate the SecurityLayer state: a detection poll, a
keydown seen by its handler, a call of the installed capture stub, and a
click on the Continue button of the capture obstruction. -/
inductive SecEvent
  | poll (w : WindowDims)
  | keydown (e : KeyEvent)
  | captureCall
  | ackContinue
deriving DecidableEq, Repr

/-- One step of the SecurityLayer state machine. -/
def secStep : SecEvent → SecState → SecState
  | SecEvent.poll w, s => detectDevTools w s
  | SecEvent.keydown e, s => (handleKeyDown e s).2
  | SecEvent.captureCall, s => (invokeCapture CaptureFn.stub s).1
  | SecEvent.ackContinue, s => continueClick s

/-- A DOM event's cancellation state, as mutated by preventDefault and
stopPropagation. -/
structure DomEvent where
  defaultPrevented : Bool
  propagationStopped : Bool
deriving DecidableEq, Repr

/-- A freshly dispatched event: nothing prevented or stopped yet. -/
def freshEvent : DomEvent :=
  { defaultPrevented := false, propagationStopped := false }

/-- blockClipboard (part_001 lines 76-80): preventDefault and
stopPropagation. -/
def blockClipboard (e : DomEvent) : DomEvent :=
  { e with defaultPrevented := true, propagationStopped := true }

/-- blockDragDrop (part_001 lines 87-91): preventDefault and
stopPropagation. -/
def blockDragDrop (e : DomEvent) : DomEvent :=
  { e with defaultPrevented := true, propagationStopped := true }

/-- blockPrint (part_001 lines 100-102): the handler only returns false.
A return value from an addEventListener callback is discarded by the
platform, so the event is left exactly as it was - in particular its
default action is not cancelled. -/
def blockPrint (e : DomEvent) : DomEvent := e

/-- The document-level event types the SecurityLayer registers handlers
for (part_001 lines 82-104). -/
inductive DocEventType
  | copy
  | cut
  | paste
  | dragstart
  | drag
  | dragenter
  | dragover
  | dropEvt
  | beforeprint
deriving DecidableEq, Repr

/-- Dispatching one of these events to the handler the SecurityLayer
registered for it. -/
def dispatchDocEvent : DocEventType → DomEvent → DomEvent
  | DocEventType.copy, e => blockClipboard e
  | DocEventType.cut, e => blockClipboard e
  | DocEventType.paste, e => blockClipboard e
  | DocEventType.dragstart, e => blockDragDrop e
  | DocEventType.drag, e => blockDragDrop e
  | DocEventType.dragenter, e => blockDragDrop e
  | DocEventType.dragover, e => blockDragDrop e
  | DocEventType.dropEvt, e => blockDragDrop e
  | DocEventType.beforeprint, e => blockPrint e

end SecurityLayer

namespace DocumentViewer

/-- JavaScript's String.prototype.toLowerCase as used on e.key
(DocumentViewer.tsx lines 75 and 77), modelled character by character so
the kernel can evaluate it. -/
def toLowerCase (s : String) : String :=
  String.mk (s.data.map Char.toLower)

/-- Condition of the DocumentViewer handleKeyDown (DocumentViewer.tsx
lines 74-80): Ctrl plus one of c/v/a/s/p/u/r/z/y (case-insensitive), F12,
Ctrl+Shift plus one of i/c/s (case-insensitive), F5, or PrintScreen. -/
def shortcutCombo (e : SecurityLayer.KeyEvent) : Bool :=
  (e.ctrlKey && ["c", "v", "a", "s", "p", "u", "r", "z", "y"].contains (toLowerCase e.key)) ||
  e.key == "F12" ||
  (e.ctrlKey && e.shiftKey && ["i", "c", "s"].contains (toLowerCase e.key)) ||
  e.key == "F5" ||
  e.key == "PrintScreen"

/-- Default-action suppression across both keydown handlers on the
document node. The viewer's handler is registered in the capture phase
and runs first; when its combo matches it calls preventDefault and
stopPropagation (so the supervisor's bubble-phase handler is skipped, the
default already being cancelled); when it does not match, propagation
reaches the supervisor's handler, which may cancel. Hence the event ends
up cancelled exactly when either combo matches. -/
def keydownDefaultPrevented (e : SecurityLayer.KeyEvent) : Bool :=
  shortcutCombo e || SecurityLayer.devToolsKeyCombo e

/-- Full document keydown dispatch while the supervisor is active. When
the viewer is mounted (the supervisor is rendering its children), the
viewer's capture-phase handler (DocumentViewer.tsx line 87, registered
with capture=true) runs first: on a combo match it calls preventDefault
and stopPropagation (line 82), so the supervisor's bubble-phase handler
(part_001 line 47) never receives the event; on no match, propagation
continues and the supervisor's handler runs. When the viewer is not
mounted, only the supervisor's handler runs. Returns (defaultPrevented,
new supervisor state). -/
def dispatchKeydown (viewerMounted : Bool) (e : SecurityLayer.KeyEvent)
    (s : SecurityLayer.SecState) : Bool × SecurityLayer.SecState :=
  if viewerMounted && shortcutCombo e then (true, s)
  else SecurityLayer.handleKeyDown e s

/-- handleZoomIn (DocumentViewer.tsx lines 142-144):
setZoom(prev => Math.min(prev + 25, 200)). -/
def handleZoomIn (zoom : Int) : Int := min (zoom + 25) 200

/-- handleZoomOut (DocumentViewer.tsx lines 146-148):
setZoom(prev => Math.max(prev - 25, 50)). -/
def handleZoomOut (zoom : Int) : Int := max (zoom - 25) 50

/-- A zoom adjustment: the zoom-in or the zoom-out button. -/
inductive ZoomOp
  | zoomIn
  | zoomOut
deriving DecidableEq, Repr

/-- Applying one zoom button press to the current zoom value. -/
def applyZoom : ZoomOp → Int → Int
  | ZoomOp.zoomIn, z => handleZoomIn z
  | ZoomOp.zoomOut, z => handleZoomOut z

/-- Folding a sequence of zoom button presses over the initial zoom of
100 (DocumentViewer.tsx line 30). -/
def zoomRun (ops : List ZoomOp) : Int :=
  ops.foldl (fun z op => applyZoom op z) 100

/-- nextFile (DocumentViewer.tsx lines 150-154): advance only when
currentIndex < files.length - 1. -/
def nextFile (currentIndex : Int) (numFiles : Nat) : Int :=
  if currentIndex < (numFiles : Int) - 1 then currentIndex + 1 else currentIndex

/-- prevFile (DocumentViewer.tsx lines 156-160): retreat only when
currentIndex > 0. -/
def prevFile (currentIndex : Int) : Int :=
  if currentIndex > 0 then currentIndex - 1 else currentIndex

/-- A navigation button press. -/
inductive NavDir
  | forward
  | backward
deriving DecidableEq, Repr

/-- Applying one navigation button press. -/
def navigate (numFiles : Nat) : NavDir → Int → Int
  | NavDir.forward, i => nextFile i numFiles
  | NavDir.backward, i => prevFile i

/-- Folding a sequence of navigation presses over a starting index. -/
def navRun (numFiles : Nat) (dirs : List NavDir) (i : Int) : Int :=
  dirs.foldl (fun j d => navigate numFiles d j) i

/-- The fields of an UploadedFile the viewer reads (DocumentViewer.tsx
lines 5-13): display name, MIME type, object URL, and - for the purposes
of the conversion model - the data URL that FileReader.readAsDataURL
would produce from the file's bytes. -/
structure UploadedFile where
  name : String
  type : String
  url : String
  dataURL : String
deriving DecidableEq, Repr

/-- What renderContent (DocumentViewer.tsx lines 162-275) produces:
nothing when there is no current file, an image element, the PDF loading
placeholder, the PDF iframe with the converted data, the text
placeholder, or the preview-not-available fallback. -/
inductive ContentRender
  | empty
  | image (url : String) (zoom : Int)
  | pdfLoading
  | pdfFrame (data : String) (zoom : Int)
  | textPlaceholder
  | previewNotAvailable (name : String) (mime : String)
deriving DecidableEq, Repr

/-- JavaScript's String.prototype.startsWith, modelled on the character
lists so the kernel can evaluate it. -/
def jsStartsWith (s pre : String) : Bool :=
  pre.data.isPrefixOf s.data

/-- renderContent (DocumentViewer.tsx lines 162-275), branching on the
current file's MIME type exactly as the source does. -/
def renderContent (currentFile : Option UploadedFile) (pdfData : Option String)
    (zoom : Int) : ContentRender :=
  match currentFile with
  | none => ContentRender.empty
  | some f =>
    if jsStartsWith f.type "image/" then ContentRender.image f.url zoom
    else if f.type == "application/pdf" then
      match pdfData with
      | none => ContentRender.pdfLoading
      | some d => ContentRender.pdfFrame d zoom
    else if jsStartsWith f.type "text/" then ContentRender.textPlaceholder
    else ContentRender.previewNotAvailable f.name f.type

/-- The content area of the viewer (DocumentViewer.tsx lines 383-393):
the focus-loss obstruction replaces renderContent while isBlurred. -/
inductive SurfaceRender
  | contentProtected
  | content (r : ContentRender)
deriving DecidableEq, Repr

/-- The isBlurred branch of the content area (DocumentViewer.tsx lines
383-393). -/
def contentArea (isBlurred : Bool) (currentFile : Option UploadedFile)
    (pdfData : Option String) (zoom : Int) : SurfaceRender :=
  if isBlurred then SurfaceRender.contentProtected
  else SurfaceRender.content (renderContent currentFile pdfData zoom)

/-- The output of the supervisor-wrapped viewer: one of the three
obstruction views, or actual document content. -/
inductive ViewOutput
  | obstructionDevTools
  | obstructionCapture
  | obstructionFocus
  | documentContent (r : ContentRender)
deriving DecidableEq, Repr

/-- The SecurityLayer wraps the viewer: its obstruction (part_001 lines
144-174) preempts the child render entirely; inside, the viewer's own
focus-loss obstruction preempts renderContent. -/
def combinedRender (s : SecurityLayer.SecState) (isBlurred : Bool)
    (currentFile : Option UploadedFile) (pdfData : Option String)
    (zoom : Int) : ViewOutput :=
  match SecurityLayer.render s with
  | SecurityLayer.SecRender.accessDenied => ViewOutput.obstructionDevTools
  | SecurityLayer.SecRender.captureBlocked => ViewOutput.obstructionCapture
  | SecurityLayer.SecRender.children =>
    match contentArea isBlurred currentFile pdfData zoom with
    | SurfaceRender.contentProtected => ViewOutput.obstructionFocus
    | SurfaceRender.content r => ViewOutput.documentContent r

/-- Whether an output is an obstruction view (anything but content). -/
def isObstruction : ViewOutput → Bool
  | ViewOutput.documentContent _ => false
  | _ => true

/-- The state of the PDF-conversion effect (DocumentViewer.tsx lines
30-57): the document list, the current index, the pdfData React state,
and the set of indices whose FileReader read is still in flight. -/
structure ConvState where
  files : List UploadedFile
  currentIndex : Nat
  pdfData : Option String
  pending : List Nat
deriving DecidableEq, Repr

/-- The body of the useEffect keyed on currentFile (DocumentViewer.tsx
lines 41-57): for a PDF current file it starts a FileReader read (no
reset of pdfData); for anything else, including no file, it sets pdfData
to null. -/
def pdfEffect (s : ConvState) : ConvState :=
  match s.files.get? s.currentIndex with
  | some f =>
    if f.type == "application/pdf" then { s with pending := s.currentIndex :: s.pending }
    else { s with pdfData := none }
  | none => { s with pdfData := none }

/-- Asynchronous events of the conversion model: the viewer switches to
another document (onFileChange then the effect re-runs, since currentFile
changed), or a pending FileReader read completes (reader.onload fires and
stores the result in pdfData unconditionally). -/
inductive ConvEvent
  | switchTo (j : Nat)
  | readComplete (k : Nat)
deriving DecidableEq, Repr

/-- One step of the conversion machine. A switch to the same index is a
no-op (the effect is keyed on currentFile, which does not change); a
completion for a read that is not pending is a no-op. -/
def convStep : ConvEvent → ConvState → ConvState
  | ConvEvent.switchTo j, s =>
    if j < s.files.length ∧ j ≠ s.currentIndex then
      pdfEffect { s with currentIndex := j }
    else s
  | ConvEvent.readComplete k, s =>
    if k ∈ s.pending then
      match s.files.get? k with
      | some f => { s with pending := s.pending.erase k, pdfData := some f.dataURL }
      | none => s
    else s

/-- Mounting the viewer (DocumentViewer.tsx lines 30-41): pdfData starts
null and the effect runs once for the initial current file. -/
def mount (files : List UploadedFile) (idx : Nat) : ConvState :=
  pdfEffect { files := files, currentIndex := idx, pdfData := none, pending := [] }

/-- Running a sequence of conversion events from a state. -/
def convRun (s : ConvState) : List ConvEvent → ConvState
  | [] => s
  | ev :: evs => convRun (convStep ev s) evs

/-- What the embedded-frame area shows in a conversion state: the
renderContent branch for the current file at the current pdfData. -/
def convRender (s : ConvState) : ContentRender :=
  renderContent (s.files.get? s.currentIndex) s.pdfData 100

/-- Invariant of the conversion machine: every pending read is for a
valid PDF index, and pdfData, when set, holds the conversion result of
some PDF document of the session's list - not necessarily the current
one. -/
def convInv (s : ConvState) : Prop :=
  (∀ k ∈ s.pending, ∃ f, s.files.get? k = some f ∧ f.type = "application/pdf") ∧
  (s.pdfData = none ∨
    ∃ f ∈ s.files, f.type = "application/pdf" ∧ s.pdfData = some f.dataURL)

/-- A concrete PDF document used as input for the conversion scenarios. -/
def samplePdfA : UploadedFile :=
  { name := "a.pdf", type := "application/pdf", url := "blob:a",
    dataURL := "data:application/pdf;base64,AAAA" }

/-- A second concrete PDF document with different content. -/
def samplePdfB : UploadedFile :=
  { name := "b.pdf", type := "application/pdf", url := "blob:b",
    dataURL := "data:application/pdf;base64,BBBB" }

end DocumentViewer

open SecurityLayer DocumentViewer

/-- C1: in every state of the protection layer, if devToolsOpen
(the spec's inspectionToolsSuspected), screenCaptureAttempt (the spec's
captureAttemptSuspected) or the viewer-local isBlurred (the spec's
contentHidden) flag is set, the combined render is an obstruction view
and never document content; and in every output, being an obstruction
and being document content are mutually exclusive. -/
theorem c1_obstruction_invariant (s : SecState) (isBlurred : Bool)
    (f : Option UploadedFile) (d : Option String) (z : Int)
    (h : s.devToolsOpen = true ∨ s.screenCaptureAttempt = true ∨ isBlurred = true) :
    isObstruction (combinedRender s isBlurred f d z) = true ∧
    (∀ r, combinedRender s isBlurred f d z ≠ ViewOutput.documentContent r) ∧
    (∀ out : ViewOutput,
      isObstruction out = true ↔ ∀ r, out ≠ ViewOutput.documentContent r) := by
  refine ⟨?_, ?_, ?_⟩
  · rcases s with ⟨dt, sc⟩
    cases dt <;> cases sc <;> cases isBlurred <;>
      simp_all [combinedRender, SecurityLayer.render, contentArea, isObstruction]
  · intro r
    rcases s with ⟨dt, sc⟩
    cases dt <;> cases sc <;> cases isBlurred <;>
      simp_all [combinedRender, SecurityLayer.render, contentArea, isObstruction]
  · intro out
    cases out <;> simp [isObstruction]

/-- Witness for C1 at a concrete state with devToolsOpen set. -/
theorem c1_obstruction_invariant_witness :
    isObstruction (combinedRender ⟨true, false⟩ false none none 100) = true ∧
    (∀ r, combinedRender ⟨true, false⟩ false none none 100 ≠ ViewOutput.documentContent r) ∧
    (∀ out : ViewOutput,
      isObstruction out = true ↔ ∀ r, out ≠ ViewOutput.documentContent r) :=
  c1_obstruction_invariant ⟨true, false⟩ false none none 100 (Or.inl rfl)

/-- C2: at supervisor start, if the capture API is present the
getDisplayMedia slot is replaced by the stub; every invocation of the
stub sets screenCaptureAttempt and returns a rejected promise; when the
API is absent the navigator is left untouched (the feature is silently
inactive, no error is surfaced). -/
theorem c2_capture_interception :
    (∀ nav : Navigator, hasCaptureAPI nav = true →
      detectScreenCapture nav =
        { mediaDevices := some { getDisplayMedia := some CaptureFn.stub } }) ∧
    (∀ s : SecState,
      (invokeCapture CaptureFn.stub s).1.screenCaptureAttempt = true ∧
      ∃ msg, (invokeCapture CaptureFn.stub s).2 = CaptureResult.rejected msg) ∧
    (∀ nav : Navigator, hasCaptureAPI nav = false →
      detectScreenCapture nav = nav) := by
  refine ⟨?_, ?_, ?_⟩
  · rintro ⟨md⟩ h
    rcases md with _ | ⟨g⟩
    · simp [hasCaptureAPI] at h
    · rcases g with _ | fn
      · simp [hasCaptureAPI] at h
      · simp [detectScreenCapture]
  · intro s
    exact ⟨rfl, "Screen capture blocked by SecureViewer Pro", rfl⟩
  · rintro ⟨md⟩ h
    rcases md with _ | ⟨g⟩
    · rfl
    · rcases g with _ | fn
      · rfl
      · simp [hasCaptureAPI] at h

/-- Witness for C2: a navigator with the original API present, and one
with mediaDevices absent. -/
theorem c2_capture_interception_witness :
    detectScreenCapture ⟨some ⟨some CaptureFn.original⟩⟩ =
      { mediaDevices := some { getDisplayMedia := some CaptureFn.stub } } ∧
    (invokeCapture CaptureFn.stub ⟨false, false⟩).1.screenCaptureAttempt = true ∧
    detectScreenCapture ⟨none⟩ = ⟨none⟩ :=
  ⟨c2_capture_interception.1 ⟨some ⟨some CaptureFn.original⟩⟩ rfl,
   (c2_capture_interception.2.1 ⟨false, false⟩).1,
   c2_capture_interception.2.2 ⟨none⟩ rfl⟩

/-- C3: on every detection poll, devToolsOpen becomes true exactly when
outerWidth - innerWidth > 160 or outerHeight - innerHeight > 160; hence
the access-denied obstruction is rendered right after a poll whose delta
exceeds the threshold, and is gone right after a poll whose deltas are
both back at or under the threshold. -/
theorem c3_devtools_poll (w : WindowDims) (s : SecState) :
    ((detectDevTools w s).devToolsOpen =
      decide (w.outerWidth - w.innerWidth > 160 ∨ w.outerHeight - w.innerHeight > 160)) ∧
    ((w.outerWidth - w.innerWidth > 160 ∨ w.outerHeight - w.innerHeight > 160) →
      SecurityLayer.render (secStep (SecEvent.poll w) s) = SecRender.accessDenied) ∧
    ((w.outerWidth - w.innerWidth ≤ 160 ∧ w.outerHeight - w.innerHeight ≤ 160) →
      (secStep (SecEvent.poll w) s).devToolsOpen = false ∧
      SecurityLayer.render (secStep (SecEvent.poll w) s) ≠ SecRender.accessDenied) := by
  refine ⟨?_, ?_, ?_⟩
  · by_cases h1 : w.outerWidth - w.innerWidth > 160 <;>
      by_cases h2 : w.outerHeight - w.innerHeight > 160 <;>
        simp [detectDevTools, h1, h2]
  · intro h
    rcases h with h | h <;>
      simp_all [detectDevTools, secStep, SecurityLayer.render]
  · rintro ⟨h1, h2⟩
    have hx : ¬(w.outerWidth - w.innerWidth > 160) := by omega
    have hy : ¬(w.outerHeight - w.innerHeight > 160) := by omega
    have hflag : (secStep (SecEvent.poll w) s).devToolsOpen = false := by
      simp [secStep, detectDevTools, hx, hy]
    refine ⟨hflag, ?_⟩
    cases hsc : (secStep (SecEvent.poll w) s).screenCaptureAttempt <;>
      simp [SecurityLayer.render, hflag, hsc]

/-- Witness for C3 at an over-threshold and an under-threshold poll. -/
theorem c3_devtools_poll_witness :
    SecurityLayer.render (secStep (SecEvent.poll ⟨500, 100, 400, 400⟩) ⟨false, false⟩) =
      SecRender.accessDenied ∧
    ((secStep (SecEvent.poll ⟨500, 450, 400, 390⟩) ⟨true, false⟩).devToolsOpen = false ∧
      SecurityLayer.render (secStep (SecEvent.poll ⟨500, 450, 400, 390⟩) ⟨true, false⟩) ≠
        SecRender.accessDenied) :=
  ⟨(c3_devtools_poll ⟨500, 100, 400, 400⟩ ⟨false, false⟩).2.1 (Or.inl (by decide)),
   (c3_devtools_poll ⟨500, 450, 400, 390⟩ ⟨true, false⟩).2.2 (by decide)⟩

/-- Helper: one navigation press keeps the index inside [0, n-1]. -/
theorem navigate_bounds (n : Nat) (d : NavDir) (i : Int)
    (h0 : 0 ≤ i) (h1 : i < (n : Int)) :
    0 ≤ navigate n d i ∧ navigate n d i < (n : Int) := by
  cases d <;> simp only [navigate, nextFile, prevFile] <;> split <;>
    constructor <;> omega

/-- Helper: a sequence of navigation presses keeps the index inside
[0, n-1]. -/
theorem navRun_bounds (n : Nat) (dirs : List NavDir) (i : Int)
    (h0 : 0 ≤ i) (h1 : i < (n : Int)) :
    0 ≤ navRun n dirs i ∧ navRun n dirs i < (n : Int) := by
  induction dirs generalizing i with
  | nil => exact ⟨h0, h1⟩
  | cons d dirs ih =>
    have hd := navigate_bounds n d i h0 h1
    simpa [navRun, List.foldl] using ih (navigate n d i) hd.1 hd.2

/-- C4: with the current index in [0, n-1], nextFile advances by exactly
one except at index n-1 where it is a no-op, prevFile retreats by exactly
one except at index 0 where it is a no-op, and under any sequence of
navigations the index never leaves [0, n-1]. -/
theorem c4_navigation (n : Nat) (i : Int) (h0 : 0 ≤ i) (h1 : i < (n : Int)) :
    (i < (n : Int) - 1 → nextFile i n = i + 1) ∧
    (i = (n : Int) - 1 → nextFile i n = i) ∧
    (0 < i → prevFile i = i - 1) ∧
    (i = 0 → prevFile i = i) ∧
    (∀ dirs : List NavDir, 0 ≤ navRun n dirs i ∧ navRun n dirs i < (n : Int)) := by
  refine ⟨?_, ?_, ?_, ?_, fun dirs => navRun_bounds n dirs i h0 h1⟩ <;>
    intro h <;> simp only [nextFile, prevFile] <;> split <;> omega

/-- Witness for C4 with three documents, starting at index 1. -/
theorem c4_navigation_witness :
    nextFile 1 3 = 2 ∧ nextFile 2 3 = 2 ∧ prevFile 1 = 0 ∧ prevFile 0 = 0 ∧
    (0 ≤ navRun 3 [NavDir.forward, NavDir.forward, NavDir.forward] 1 ∧
      navRun 3 [NavDir.forward, NavDir.forward, NavDir.forward] 1 < 3) :=
  ⟨(c4_navigation 3 1 (by decide) (by decide)).1 (by decide),
   (c4_navigation 3 2 (by decide) (by decide)).2.1 (by decide),
   (c4_navigation 3 1 (by decide) (by decide)).2.2.1 (by decide),
   (c4_navigation 3 0 (by decide) (by decide)).2.2.2.1 (by decide),
   (c4_navigation 3 1 (by decide) (by decide)).2.2.2.2
     [NavDir.forward, NavDir.forward, NavDir.forward]⟩

/-- Helper: one zoom press preserves membership in [50, 200] together
with divisibility of the offset from 100 by 25. -/
theorem applyZoom_inv (op : ZoomOp) (z : Int)
    (h : 50 ≤ z ∧ z ≤ 200 ∧ (25 : Int) ∣ (z - 100)) :
    50 ≤ applyZoom op z ∧ applyZoom op z ≤ 200 ∧
      (25 : Int) ∣ (applyZoom op z - 100) := by
  obtain ⟨hl, hu, hd⟩ := h
  cases op <;>
    simp only [applyZoom, handleZoomIn, handleZoomOut, min_def, max_def] <;>
      split <;> refine ⟨by omega, by omega, ?_⟩ <;> omega

/-- Helper: the invariant holds after folding any suffix of presses. -/
theorem zoomFold_inv (ops : List ZoomOp) (z : Int)
    (h : 50 ≤ z ∧ z ≤ 200 ∧ (25 : Int) ∣ (z - 100)) :
    50 ≤ ops.foldl (fun z op => applyZoom op z) z ∧
      ops.foldl (fun z op => applyZoom op z) z ≤ 200 ∧
      (25 : Int) ∣ (ops.foldl (fun z op => applyZoom op z) z - 100) := by
  induction ops generalizing z with
  | nil => exact h
  | cons op ops ih =>
    simpa [List.foldl] using ih (applyZoom op z) (applyZoom_inv op z h)

/-- C5: starting from the initial zoom of 100, every sequence of zoom
button presses yields a value in [50, 200] whose offset from 100 is a
multiple of 25; zoom-in at 200 and zoom-out at 50 are no-ops. -/
theorem c5_zoom_invariant :
    (∀ ops : List ZoomOp,
      50 ≤ zoomRun ops ∧ zoomRun ops ≤ 200 ∧ (25 : Int) ∣ (zoomRun ops - 100)) ∧
    handleZoomIn 200 = 200 ∧ handleZoomOut 50 = 50 := by
  refine ⟨fun ops => ?_, by decide, by decide⟩
  simpa [zoomRun] using zoomFold_inv ops 100 (by decide)

/-- C6 (at the failing input): the copy, cut, paste, dragstart, drag,
dragenter, dragover and drop handlers all cancel the event's default
action, but the beforeprint handler does not: it only returns false from
an addEventListener callback, whose return value the platform discards,
so after dispatch the beforeprint default action is NOT cancelled and
printing proceeds. -/
theorem c6_beforeprint_not_cancelled :
    (dispatchDocEvent DocEventType.copy freshEvent).defaultPrevented = true ∧
    (dispatchDocEvent DocEventType.cut freshEvent).defaultPrevented = true ∧
    (dispatchDocEvent DocEventType.paste freshEvent).defaultPrevented = true ∧
    (dispatchDocEvent DocEventType.dragstart freshEvent).defaultPrevented = true ∧
    (dispatchDocEvent DocEventType.drag freshEvent).defaultPrevented = true ∧
    (dispatchDocEvent DocEventType.dragenter freshEvent).defaultPrevented = true ∧
    (dispatchDocEvent DocEventType.dragover freshEvent).defaultPrevented = true ∧
    (dispatchDocEvent DocEventType.dropEvt freshEvent).defaultPrevented = true ∧
    (dispatchDocEvent DocEventType.beforeprint freshEvent).defaultPrevented = false := by
  decide

/-- C7 (counterexample): a Ctrl+F keydown is cancelled by neither keydown
handler - the letter f appears in no suppression list - so the find
shortcut's default action is not cancelled, contrary to the claim. -/
theorem c7_ctrlF_not_suppressed :
    keydownDefaultPrevented ⟨true, false, "f"⟩ = false := by
  decide

/-- C7 (amended): the keydown handlers cancel the default action for
Ctrl+Shift+I, Ctrl+Shift+C, Ctrl+U, Ctrl+R, F5, Ctrl+P, Ctrl+Z, Ctrl+Y
and F12 - every combination the claim lists except Ctrl+F, which is
suppressed by neither handler. -/
theorem c7_key_suppression :
    keydownDefaultPrevented ⟨true, true, "I"⟩ = true ∧
    keydownDefaultPrevented ⟨true, true, "C"⟩ = true ∧
    keydownDefaultPrevented ⟨true, false, "u"⟩ = true ∧
    keydownDefaultPrevented ⟨true, false, "r"⟩ = true ∧
    keydownDefaultPrevented ⟨false, false, "F5"⟩ = true ∧
    keydownDefaultPrevented ⟨true, false, "p"⟩ = true ∧
    keydownDefaultPrevented ⟨true, false, "z"⟩ = true ∧
    keydownDefaultPrevented ⟨true, false, "y"⟩ = true ∧
    keydownDefaultPrevented ⟨false, false, "F12"⟩ = true ∧
    keydownDefaultPrevented ⟨true, false, "f"⟩ = false := by
  decide

/-- Helper: pdfEffect never changes the document list. -/
theorem pdfEffect_files (s : ConvState) : (pdfEffect s).files = s.files := by
  unfold pdfEffect
  split
  · split <;> rfl
  · rfl

/-- Helper: a conversion step never changes the document list. -/
theorem convStep_files (ev : ConvEvent) (s : ConvState) :
    (convStep ev s).files = s.files := by
  cases ev with
  | switchTo j =>
    simp only [convStep]
    split
    · exact pdfEffect_files _
    · rfl
  | readComplete k =>
    simp only [convStep]
    split
    · split <;> rfl
    · rfl

/-- Helper: a run of conversion events never changes the document list. -/
theorem convRun_files (evs : List ConvEvent) (s : ConvState) :
    (convRun s evs).files = s.files := by
  induction evs generalizing s with
  | nil => rfl
  | cons ev evs ih => rw [convRun, ih, convStep_files]

/-- Helper: mounting leaves the given document list in place. -/
theorem mount_files (files : List UploadedFile) (idx : Nat) :
    (mount files idx).files = files :=
  pdfEffect_files _

/-- Helper: pdfEffect preserves the conversion invariant. -/
theorem pdfEffect_inv (s : ConvState) (h : convInv s) : convInv (pdfEffect s) := by
  obtain ⟨hp, hd⟩ := h
  unfold pdfEffect
  split
  next f hg =>
    split
    next ht =>
      refine ⟨?_, hd⟩
      intro k hk
      rcases List.mem_cons.mp hk with rfl | hk
      · exact ⟨f, hg, by simpa using ht⟩
      · exact hp k hk
    next ht => exact ⟨hp, Or.inl rfl⟩
  next hg => exact ⟨hp, Or.inl rfl⟩

/-- Helper: each conversion step preserves the conversion invariant. -/
theorem convStep_inv (ev : ConvEvent) (s : ConvState) (h : convInv s) :
    convInv (convStep ev s) := by
  cases ev with
  | switchTo j =>
    simp only [convStep]
    split
    · exact pdfEffect_inv _ ⟨h.1, h.2⟩
    · exact h
  | readComplete k =>
    obtain ⟨hp, hd⟩ := h
    simp only [convStep]
    split
    next hk =>
      split
      next f hg =>
        refine ⟨fun k' hk' => hp k' (List.mem_of_mem_erase hk'), Or.inr ?_⟩
        obtain ⟨f', hg', ht'⟩ := hp k hk
        have hff : f' = f := by
          rw [hg] at hg'
          exact (Option.some.inj hg').symm
        subst hff
        exact ⟨f', List.get?_mem hg, ht', rfl⟩
      next hg => exact ⟨hp, hd⟩
    next => exact ⟨hp, hd⟩

/-- Helper: the invariant holds after any run from any invariant state. -/
theorem convRun_inv (evs : List ConvEvent) (s : ConvState) (h : convInv s) :
    convInv (convRun s evs) := by
  induction evs generalizing s with
  | nil => exact h
  | cons ev evs ih => exact ih _ (convStep_inv ev s h)

/-- Helper: the invariant holds right after mount. -/
theorem mount_inv (files : List UploadedFile) (idx : Nat) :
    convInv (mount files idx) :=
  pdfEffect_inv _ ⟨fun k hk => absurd hk (List.not_mem_nil k), Or.inl rfl⟩

/-- Helper: renderContent produces a pdfFrame only from a stored pdfData
value and passes that value through unchanged. -/
theorem renderContent_pdfFrame_eq (cf : Option UploadedFile) (pd : Option String)
    (z0 z : Int) (d : String)
    (h : renderContent cf pd z0 = ContentRender.pdfFrame d z) : pd = some d := by
  rcases cf with _ | f
  · simp [renderContent] at h
  · simp only [renderContent] at h
    split at h
    · simp at h
    · split at h
      · cases pd with
        | none => simp at h
        | some d' => simp_all
      · split at h <;> simp at h

/-- C8 (counterexample): two PDF documents; a.pdf's conversion completes,
then the user switches to b.pdf. The embedded frame then renders a.pdf's
materialized data - a stale predecessor's content - while the current
document is b.pdf, instead of showing the loading placeholder until
b.pdf's conversion finishes. -/
theorem c8_stale_conversion_displayed :
    convRender (convRun (mount [samplePdfA, samplePdfB] 0)
        [ConvEvent.readComplete 0, ConvEvent.switchTo 1]) =
      ContentRender.pdfFrame samplePdfA.dataURL 100 ∧
    (convRun (mount [samplePdfA, samplePdfB] 0)
        [ConvEvent.readComplete 0, ConvEvent.switchTo 1]).currentIndex = 1 ∧
    (convRun (mount [samplePdfA, samplePdfB] 0)
        [ConvEvent.readComplete 0, ConvEvent.switchTo 1]).files.get? 1 =
      some samplePdfB ∧
    samplePdfA.dataURL ≠ samplePdfB.dataURL := by
  decide

/-- C8 (amended): the conversion is not keyed to the current document.
What holds instead: pdfData is either empty - and then the PDF branch
shows the loading placeholder - or it holds the conversion result of SOME
PDF document of the session's list, not necessarily the current one; in
particular whenever the frame renders data, that data is the materialized
representation of some session document whose conversion was started
while it was current. -/
theorem c8_conversion_unguarded (files : List UploadedFile) (idx : Nat)
    (evs : List ConvEvent) :
    ((convRun (mount files idx) evs).pdfData = none ∨
      ∃ f ∈ files, f.type = "application/pdf" ∧
        (convRun (mount files idx) evs).pdfData = some f.dataURL) ∧
    (∀ d z, convRender (convRun (mount files idx) evs) = ContentRender.pdfFrame d z →
      ∃ f ∈ files, f.type = "application/pdf" ∧ d = f.dataURL) := by
  have hinv := convRun_inv evs (mount files idx) (mount_inv files idx)
  have hfiles : (convRun (mount files idx) evs).files = files := by
    rw [convRun_files, mount_files]
  constructor
  · rcases hinv.2 with h | ⟨f, hf, ht, hd⟩
    · exact Or.inl h
    · exact Or.inr ⟨f, hfiles ▸ hf, ht, hd⟩
  · intro d z h
    have hpd : (convRun (mount files idx) evs).pdfData = some d :=
      renderContent_pdfFrame_eq _ _ 100 z d h
    rcases hinv.2 with h0 | ⟨f, hf, ht, hd⟩
    · simp [hpd] at h0
    · have : some f.dataURL = some d := hd ▸ hpd
      exact ⟨f, hfiles ▸ hf, ht, (Option.some.inj this).symm⟩

/-- Witness for C8 (amended) on a one-document run whose conversion
completes. -/
theorem c8_conversion_unguarded_witness :
    ∃ f ∈ [samplePdfA], f.type = "application/pdf" ∧
      samplePdfA.dataURL = f.dataURL :=
  (c8_conversion_unguarded [samplePdfA] 0 [ConvEvent.readComplete 0]).2
    samplePdfA.dataURL 100 (by decide)

/-- C9: the Continue button of the capture obstruction clears
screenCaptureAttempt only, leaving devToolsOpen untouched; and the only
transition that takes devToolsOpen from true to false is a detection poll
whose window deltas are both at or under the threshold - there is no
local dismissal of the developer-tools obstruction. -/
theorem c9_acknowledgement (s : SecState) (ev : SecEvent) :
    ((continueClick s).screenCaptureAttempt = false ∧
      (continueClick s).devToolsOpen = s.devToolsOpen) ∧
    (s.devToolsOpen = true → (secStep ev s).devToolsOpen = false →
      ∃ w, ev = SecEvent.poll w ∧ w.outerWidth - w.innerWidth ≤ 160 ∧
        w.outerHeight - w.innerHeight ≤ 160) := by
  refine ⟨⟨rfl, rfl⟩, ?_⟩
  intro hdt hc
  cases ev with
  | poll w =>
    have h1 : ¬(w.outerWidth - w.innerWidth > 160) := by
      intro hgt
      simp [secStep, detectDevTools, hgt] at hc
    have h2 : ¬(w.outerHeight - w.innerHeight > 160) := by
      intro hgt
      simp [secStep, detectDevTools, hgt] at hc
    exact ⟨w, rfl, by omega, by omega⟩
  | keydown e =>
    simp only [secStep, handleKeyDown] at hc
    split at hc <;> simp_all
  | captureCall =>
    simp only [secStep, invokeCapture] at hc
    simp_all
  | ackContinue =>
    simp only [secStep, continueClick] at hc
    simp_all

/-- Witness for C9 at a state with both flags set and an under-threshold
poll. -/
theorem c9_acknowledgement_witness :
    ((continueClick ⟨true, true⟩).screenCaptureAttempt = false ∧
      (continueClick ⟨true, true⟩).devToolsOpen = true) ∧
    (∃ w, SecEvent.poll ⟨100, 100, 100, 100⟩ = SecEvent.poll w ∧
      w.outerWidth - w.innerWidth ≤ 160 ∧ w.outerHeight - w.innerHeight ≤ 160) :=
  ⟨(c9_acknowledgement ⟨true, true⟩ (SecEvent.poll ⟨100, 100, 100, 100⟩)).1,
   (c9_acknowledgement ⟨true, true⟩ (SecEvent.poll ⟨100, 100, 100, 100⟩)).2 rfl rfl⟩

/-- Helper: every key combination the supervisor's handler matches is
also matched by the viewer's handler (F12 and Ctrl+Shift+I/C appear in
both; the supervisor's Ctrl+'U' is caught case-insensitively by the
viewer's first list). -/
theorem devToolsKeyCombo_subset (e : KeyEvent) (h : devToolsKeyCombo e = true) :
    shortcutCombo e = true := by
  obtain ⟨c, sh, k⟩ := e
  simp only [devToolsKeyCombo, Bool.or_eq_true, Bool.and_eq_true, beq_iff_eq] at h
  casesm* _ ∨ _, _ ∧ _
  all_goals subst_vars
  all_goals
    first
    | decide
    | (cases c <;> cases sh <;> decide)
    | (cases sh <;> decide)

/-- C10 (counterexample): during normal viewing the viewer - the
supervisor's children - is mounted, and its capture-phase handler
intercepts F12 with stopPropagation before the supervisor's bubble-phase
handler can run: the default action is cancelled but devToolsOpen stays
false, so pressing F12 does not substitute the access-denied obstruction
for the children; a plain Ctrl+U press (lowercase key value "u") sets the
flag in neither configuration. -/
theorem c10_f12_intercepted_by_viewer :
    dispatchKeydown true ⟨false, false, "F12"⟩ ⟨false, false⟩ =
      (true, ⟨false, false⟩) ∧
    dispatchKeydown true ⟨true, false, "u"⟩ ⟨false, false⟩ =
      (true, ⟨false, false⟩) ∧
    dispatchKeydown false ⟨true, false, "u"⟩ ⟨false, false⟩ =
      (false, ⟨false, false⟩) := by
  decide

/-- C10 (amended): the four combos have their default action cancelled,
but whether devToolsOpen is set depends on DOM dispatch. Every supervisor
combo is also a viewer combo, so while the viewer is mounted the viewer's
capture-phase handler stops propagation first and no keydown ever changes
the supervisor state. Only with the viewer unmounted do F12, Ctrl+Shift+I
and Ctrl+Shift+C reach the supervisor's handler, which cancels the
default, sets devToolsOpen and puts up the access-denied obstruction; a
plain Ctrl+U press (lowercase key value "u") fails the supervisor's
uppercase comparison and never sets the flag. A set flag is transient:
any detection poll with both deltas at or under 160 resets it to false. -/
theorem c10_keyboard_block_dispatch (e : KeyEvent) (s : SecState) (w : WindowDims) :
    (devToolsKeyCombo e = true → shortcutCombo e = true) ∧
    (dispatchKeydown true e s).2 = s ∧
    (devToolsKeyCombo e = true → dispatchKeydown true e s = (true, s)) ∧
    (dispatchKeydown false ⟨false, false, "F12"⟩ s =
        (true, { s with devToolsOpen := true }) ∧
      dispatchKeydown false ⟨true, true, "I"⟩ s =
        (true, { s with devToolsOpen := true }) ∧
      dispatchKeydown false ⟨true, true, "C"⟩ s =
        (true, { s with devToolsOpen := true }) ∧
      SecurityLayer.render (dispatchKeydown false ⟨false, false, "F12"⟩ s).2 =
        SecRender.accessDenied) ∧
    (dispatchKeydown true ⟨true, false, "u"⟩ s = (true, s) ∧
      dispatchKeydown false ⟨true, false, "u"⟩ s = (false, s)) ∧
    (w.outerWidth - w.innerWidth ≤ 160 → w.outerHeight - w.innerHeight ≤ 160 →
      (detectDevTools w s).devToolsOpen = false) := by
  have hsub : devToolsKeyCombo e = true → shortcutCombo e = true :=
    devToolsKeyCombo_subset e
  refine ⟨hsub, ?_, ?_, ⟨rfl, rfl, rfl, rfl⟩, ⟨rfl, rfl⟩, ?_⟩
  · by_cases hsc : shortcutCombo e = true
    · simp [dispatchKeydown, hsc]
    · have hdc : devToolsKeyCombo e = false := by
        cases hdc2 : devToolsKeyCombo e
        · rfl
        · exact absurd (hsub hdc2) hsc
      simp [dispatchKeydown, hsc, handleKeyDown, hdc]
  · intro hdc
    simp [dispatchKeydown, hsub hdc]
  · intro h1 h2
    have hx : ¬(w.outerWidth - w.innerWidth > 160) := by omega
    have hy : ¬(w.outerHeight - w.innerHeight > 160) := by omega
    simp [detectDevTools, hx, hy]

/-- Witness for C10 (amended) at the Ctrl+Shift+I combo with the viewer
mounted and an under-threshold poll. -/
theorem c10_keyboard_block_dispatch_witness :
    shortcutCombo ⟨true, true, "I"⟩ = true ∧
    dispatchKeydown true ⟨true, true, "I"⟩ ⟨false, true⟩ = (true, ⟨false, true⟩) ∧
    (detectDevTools ⟨100, 100, 100, 100⟩ ⟨false, true⟩).devToolsOpen = false :=
  ⟨(c10_keyboard_block_dispatch ⟨true, true, "I"⟩ ⟨false, true⟩
      ⟨100, 100, 100, 100⟩).1 (by decide),
   (c10_keyboard_block_dispatch ⟨true, true, "I"⟩ ⟨false, true⟩
      ⟨100, 100, 100, 100⟩).2.2.1 (by decide),
   (c10_keyboard_block_dispatch ⟨true, true, "I"⟩ ⟨false, true⟩
      ⟨100, 100, 100, 100⟩).2.2.2.2.2 (by decide) (by decide)⟩
